import Mathlib

/-!
Shallow embedding of the gesture-control repository
(gesture_control_system.py, gesture_control_client_arduino.py):
the gesture classifier, the hold-to-repeat interaction controller,
the device state operations, and the serial line-protocol parser.

Python floats (landmark coordinates, time stamps) are embedded as
rationals where only ordered-field arithmetic occurs, and as reals where
`math.sqrt` is involved; Python ints are embedded as `Int`.
-/

namespace GestureControl

/-- Gesture labels returned by `HandGestureDetector.detect_gesture`. -/
inductive Gesture where
  | THUMBS_UP
  | THUMBS_DOWN
  | ONE
  | TWO
  | OPEN
  | CLOSED
  | UNKNOWN
deriving DecidableEq, Repr

/-- The `mode` variable of the main loops: "LED" or "MOTOR". -/
inductive Mode where
  | LED
  | MOTOR
deriving DecidableEq, Repr

/-- Abstract outbound command (spec data model): each value marks one
device-operation call site of `gesture_control_system.main`. -/
inductive Command where
  | SetMode (m : Mode)
  | TurnOn
  | TurnOff
  | LevelUp
  | LevelDown
deriving DecidableEq, Repr

/-- State of `DeviceController` (gesture_control_system.py) together with the
main-loop locals `mode`, `last_gesture`, `gesture_start_time`. -/
structure SysState where
  mode : Mode
  led_on : Bool
  led_level : Int
  motor_on : Bool
  motor_level : Int
  last_gesture : Option Gesture
  gesture_start_time : Option ℚ
deriving DecidableEq, Repr

/-- Embeds `DeviceController.set_led_brightness`: `self.led_level = max(0, min(5, level))`. -/
def set_led_brightness (s : SysState) (level : Int) : SysState :=
  { s with led_level := max 0 (min 5 level) }

/-- Embeds `DeviceController.set_servo_speed`: `self.motor_level = max(0, min(5, level))`. -/
def set_servo_speed (s : SysState) (level : Int) : SysState :=
  { s with motor_level := max 0 (min 5 level) }

/-- Embeds `DeviceController.led_turn_on`. -/
def led_turn_on (s : SysState) : SysState :=
  let s1 := { s with led_on := true }
  let s2 := if s1.led_level = 0 then { s1 with led_level := 3 } else s1
  set_led_brightness s2 s2.led_level

/-- Embeds `DeviceController.led_turn_off`. -/
def led_turn_off (s : SysState) : SysState :=
  { s with led_on := false }

/-- Embeds `DeviceController.motor_turn_on`. -/
def motor_turn_on (s : SysState) : SysState :=
  let s1 := { s with motor_on := true }
  let s2 := if s1.motor_level = 0 then { s1 with motor_level := 3 } else s1
  set_servo_speed s2 s2.motor_level

/-- Embeds `DeviceController.motor_turn_off`. -/
def motor_turn_off (s : SysState) : SysState :=
  { s with motor_on := false }

/-- Embeds `DeviceController.increase_led`. -/
def increase_led (s : SysState) : SysState :=
  if s.led_on then set_led_brightness s (s.led_level + 1) else s

/-- Embeds `DeviceController.decrease_led`. -/
def decrease_led (s : SysState) : SysState :=
  if s.led_on then set_led_brightness s (s.led_level - 1) else s

/-- Embeds `DeviceController.increase_motor`. -/
def increase_motor (s : SysState) : SysState :=
  if s.motor_on then set_servo_speed s (s.motor_level + 1) else s

/-- Embeds `DeviceController.decrease_motor`. -/
def decrease_motor (s : SysState) : SysState :=
  if s.motor_on then set_servo_speed s (s.motor_level - 1) else s

/-- Embeds `HOLD_DURATION = 2.0` seconds. -/
def HOLD_DURATION : ℚ := 2

/-- The `elif gesture in ["THUMBS_UP", "THUMBS_DOWN"]` block of
`gesture_control_system.main` (lines 396-429): the hold-to-repeat timer
together with the `increase_*`/`decrease_*` dispatch on a fire.
(When `last_gesture == gesture` Python also has `gesture_start_time`
set — the two locals are always assigned together — so the
`gesture_start_time = none` fallback is unreachable there.) -/
def holdStep (s : SysState) (gesture : Gesture) (t : ℚ) : SysState × List Command :=
  if s.last_gesture ≠ some gesture then
    ({ s with last_gesture := some gesture, gesture_start_time := some t }, [])
  else
    match s.gesture_start_time with
    | some t0 =>
      if HOLD_DURATION ≤ t - t0 then
        let s1 :=
          if gesture = Gesture.THUMBS_UP then
            if s.mode = Mode.LED then increase_led s else increase_motor s
          else
            if s.mode = Mode.LED then decrease_led s else decrease_motor s
        ({ s1 with gesture_start_time := some t },
         [if gesture = Gesture.THUMBS_UP then Command.LevelUp else Command.LevelDown])
      else (s, [])
    | none => (s, [])

/-- One iteration of the gesture-handling block of `gesture_control_system.main`
(the `if gesture:` block, lines 370-437), given the classified gesture
(`none` = no hand detected) and the current time. One branch per `elif`;
the final `else` of the chain catches exactly the remaining label
`"UNKNOWN"`. Returns the new state and the commands emitted: a `Command`
value is recorded at each device-operation call site (mode switch,
`led_turn_on`, ..., and at a repeat fire the `increase_*`/`decrease_*`
invocation as `LevelUp`/`LevelDown`). -/
def ctrlStep (s : SysState) (g : Option Gesture) (t : ℚ) : SysState × List Command :=
  match g with
  | none => ({ s with last_gesture := none, gesture_start_time := none }, [])
  | some Gesture.ONE =>
    if s.mode ≠ Mode.LED then ({ s with mode := Mode.LED }, [Command.SetMode Mode.LED])
    else (s, [])
  | some Gesture.TWO =>
    if s.mode ≠ Mode.MOTOR then ({ s with mode := Mode.MOTOR }, [Command.SetMode Mode.MOTOR])
    else (s, [])
  | some Gesture.OPEN =>
    if s.mode = Mode.LED ∧ s.led_on = false then (led_turn_on s, [Command.TurnOn])
    else if s.mode = Mode.MOTOR ∧ s.motor_on = false then (motor_turn_on s, [Command.TurnOn])
    else (s, [])
  | some Gesture.CLOSED =>
    if s.mode = Mode.LED ∧ s.led_on = true then (led_turn_off s, [Command.TurnOff])
    else if s.mode = Mode.MOTOR ∧ s.motor_on = true then (motor_turn_off s, [Command.TurnOff])
    else (s, [])
  | some Gesture.THUMBS_UP => holdStep s Gesture.THUMBS_UP t
  | some Gesture.THUMBS_DOWN => holdStep s Gesture.THUMBS_DOWN t
  | some Gesture.UNKNOWN =>
    ({ s with last_gesture := none, gesture_start_time := none }, [])

/-- Run the controller over a list of (gesture, time) frames, concatenating
the emitted commands. -/
def ctrlRun (s : SysState) : List (Option Gesture × ℚ) → SysState × List Command
  | [] => (s, [])
  | (g, t) :: rest =>
    let p := ctrlStep s g t
    let q := ctrlRun p.1 rest
    (q.1, p.2 ++ q.2)

/-- Initial controller state of `gesture_control_system.main`:
mode "LED", both devices off at level 0, no active hold. -/
def initState : SysState :=
  { mode := .LED, led_on := false, led_level := 0,
    motor_on := false, motor_level := 0,
    last_gesture := none, gesture_start_time := none }

/-- Gesture stream of the spec scenario: `One`, `Open`, then `ThumbsUp`
held from t=0 with further frames at t=2.0s and t=2.1s, then `Closed`. -/
def C1stream : List (Option Gesture × ℚ) :=
  [(some Gesture.ONE, 0), (some Gesture.OPEN, 0), (some Gesture.THUMBS_UP, 0),
   (some Gesture.THUMBS_UP, 2), (some Gesture.THUMBS_UP, 21/10), (some Gesture.CLOSED, 21/10)]

/- ## Arduino client (gesture_control_client_arduino.py) -/

/-- Protocol lines: Python `str` embedded as a list of characters. -/
abbrev Line := List Char

/-- Prefix test on character lists: `line.startswith(pat)`. -/
def strStarts : Line → Line → Bool
  | _, [] => true
  | [], _ :: _ => false
  | c :: s, p :: ps => c == p && strStarts s ps

/-- Substring test on character lists: Python `pat in line`. -/
def hasSub (pat : Line) : Line → Bool
  | [] => strStarts [] pat
  | c :: rest => strStarts (c :: rest) pat || hasSub pat rest

/-- Python `line.split(sep)` for a one-character separator. -/
def splitOnChar (sep : Char) : Line → List Line
  | [] => [[]]
  | c :: s =>
    let r := splitOnChar sep s
    if c == sep then [] :: r
    else
      match r with
      | [] => [[c]]
      | w :: ws => (c :: w) :: ws

/-- Digit-string to number; `none` when empty or a non-digit occurs
(where Python `int()` raises `ValueError`). -/
def toNatDigits : Line → Option Nat
  | [] => none
  | ds => ds.foldl
      (fun acc c => acc.bind (fun n => if c.isDigit then some (n * 10 + (c.toNat - 48)) else none))
      (some 0)

/-- Python `int(s)` on a protocol field: optional leading minus sign then
decimal digits. -/
def toIntChars : Line → Option Int
  | '-' :: ds => (toNatDigits ds).map (fun n => -(n : Int))
  | ds => (toNatDigits ds).map (fun n => (n : Int))

/-- Local state of `ArduinoController` (mode is the raw string received)
plus the main-loop locals `last_gesture`, `gesture_start_time`. -/
structure ArdState where
  mode : Line
  led_on : Bool
  led_level : Int
  motor_on : Bool
  motor_level : Int
  last_gesture : Option Gesture
  gesture_start_time : Option ℚ
deriving DecidableEq, Repr

/-- Constructor state of `ArduinoController.__init__`:
mode "LED", both devices reported off with level 3, no active hold. -/
def ard_init : ArdState :=
  { mode := ("LED".data), led_on := false, led_level := 3,
    motor_on := false, motor_level := 3,
    last_gesture := none, gesture_start_time := none }

/-- Embeds `ArduinoController._process_response`: parse one inbound line and
update the mirrored state. A failing `int()` raises in Python and kills the
reader thread, so assignments made before the failing conversion persist:
the model returns the partially updated state at those points. -/
def process_response (a : ArdState) (line : Line) : ArdState :=
  if strStarts line ("STATUS:".data) then
    let parts := splitOnChar ',' (line.drop 7)
    if parts.length = 5 then
      let a1 := { a with mode := parts[0]!, led_on := parts[1]! == ("ON".data) }
      match toIntChars parts[2]! with
      | none => a1
      | some n =>
        let a2 := { a1 with led_level := n, motor_on := parts[3]! == ("ON".data) }
        match toIntChars parts[4]! with
        | none => a2
        | some m => { a2 with motor_level := m }
    else a
  else if strStarts line ("MODE:".data) then
    { a with mode := line.drop 5 }
  else if strStarts line ("LED:".data) then
    if hasSub ("ON".data) line then { a with led_on := true }
    else if hasSub ("OFF".data) line then { a with led_on := false }
    else if hasSub ("LEVEL:".data) line then
      let parts := splitOnChar ':' line
      if 3 ≤ parts.length then
        match toIntChars parts[2]! with
        | none => a
        | some n => { a with led_level := n }
      else a
    else a
  else if strStarts line ("MOTOR:".data) then
    if hasSub ("ON".data) line then { a with motor_on := true }
    else if hasSub ("OFF".data) line then { a with motor_on := false }
    else if hasSub ("LEVEL:".data) line then
      let parts := splitOnChar ':' line
      if 3 ≤ parts.length then
        match toIntChars parts[2]! with
        | none => a
        | some n => { a with motor_level := n }
      else a
    else a
  else a

/-- Embeds `ArduinoController.set_mode`: sends `MODE:<m>`; the local `mode`
field is not written (it changes only via `_process_response`). -/
def ard_set_mode (m : Line) : List Line :=
  [("MODE:".data) ++ m]

/-- Embeds `ArduinoController.turn_on`: sends the ON line for the device
selected by the current mode, unconditionally. -/
def ard_turn_on (a : ArdState) : List Line :=
  if a.mode == ("LED".data) then [("LED:ON".data)] else [("MOTOR:ON".data)]

/-- Embeds `ArduinoController.turn_off`. -/
def ard_turn_off (a : ArdState) : List Line :=
  if a.mode == ("LED".data) then [("LED:OFF".data)] else [("MOTOR:OFF".data)]

/-- Embeds `ArduinoController.increase`. -/
def ard_increase (a : ArdState) : List Line :=
  if a.mode == ("LED".data) then [("LED:UP".data)] else [("MOTOR:UP".data)]

/-- Embeds `ArduinoController.decrease`. -/
def ard_decrease (a : ArdState) : List Line :=
  if a.mode == ("LED".data) then [("LED:DOWN".data)] else [("MOTOR:DOWN".data)]

/-- Hold-to-repeat block of `gesture_control_client_arduino.main`
(lines 404-425), identical in structure to `holdStep`. -/
def ardHoldStep (a : ArdState) (gesture : Gesture) (t : ℚ) : ArdState × List Line :=
  if a.last_gesture ≠ some gesture then
    ({ a with last_gesture := some gesture, gesture_start_time := some t }, [])
  else
    match a.gesture_start_time with
    | some t0 =>
      if HOLD_DURATION ≤ t - t0 then
        ({ a with gesture_start_time := some t },
         if gesture = Gesture.THUMBS_UP then ard_increase a else ard_decrease a)
      else (a, [])
    | none => (a, [])

/-- One iteration of the gesture-handling block of
`gesture_control_client_arduino.main` (lines 384-431). Note `OPEN` and
`CLOSED` call `turn_on`/`turn_off` with no check of the mirrored device
state, and the sent commands never mutate the local state. -/
def ardStep (a : ArdState) (g : Option Gesture) (t : ℚ) : ArdState × List Line :=
  match g with
  | none => ({ a with last_gesture := none, gesture_start_time := none }, [])
  | some Gesture.ONE =>
    (a, if a.mode ≠ ("LED".data) then ard_set_mode ("LED".data) else [])
  | some Gesture.TWO =>
    (a, if a.mode ≠ ("MOTOR".data) then ard_set_mode ("MOTOR".data) else [])
  | some Gesture.OPEN => (a, ard_turn_on a)
  | some Gesture.CLOSED => (a, ard_turn_off a)
  | some Gesture.THUMBS_UP => ardHoldStep a Gesture.THUMBS_UP t
  | some Gesture.THUMBS_DOWN => ardHoldStep a Gesture.THUMBS_DOWN t
  | some Gesture.UNKNOWN =>
    ({ a with last_gesture := none, gesture_start_time := none }, [])

/- ## Gesture classifier (HandGestureDetector) -/

/-- One landmark point: normalized coordinates, embedded as rationals. -/
structure Landmark where
  x : ℚ
  y : ℚ
deriving DecidableEq

/-- One detected hand: 21 landmarks in MediaPipe numbering. -/
abbrev Hand := Fin 21 → Landmark

/-- Embeds `calculate_distance`: Euclidean distance of two landmarks
(`math.sqrt` forces the value into the reals). -/
noncomputable def calculate_distance (p1 p2 : Landmark) : ℝ :=
  Real.sqrt (((p1.x - p2.x : ℚ) : ℝ) ^ 2 + ((p1.y - p2.y : ℚ) : ℝ) ^ 2)

/-- Embeds `is_finger_extended`: thumb (tip id 4) is compared laterally,
with direction chosen by the wrist/palm x order; other fingers vertically. -/
def is_finger_extended (landmarks : Hand) (finger_tip_id finger_pip_id : Fin 21) : Bool :=
  let tip := landmarks finger_tip_id
  let pip := landmarks finger_pip_id
  if finger_tip_id = 4 then
    if (landmarks 0).x < (landmarks 9).x then decide (tip.x < (landmarks 3).x)
    else decide (tip.x > (landmarks 3).x)
  else
    decide (tip.y < pip.y)

/-- Embeds `count_extended_fingers`: applies the predicate to the five
canonical (tip, pip) pairs; returns the count and the extended tip ids. -/
def count_extended_fingers (landmarks : Hand) : Nat × List (Fin 21) :=
  let finger_tips : List (Fin 21) := [4, 8, 12, 16, 20]
  let finger_pips : List (Fin 21) := [3, 6, 10, 14, 18]
  let extended := ((finger_tips.zip finger_pips).filter
    (fun p => is_finger_extended landmarks p.1 p.2)).map (fun p => p.1)
  (extended.length, extended)

/-- Mean distance from the palm-center landmark (index 9) to the five
fingertips, as computed in the `CLOSED` rule of `detect_gesture`. -/
noncomputable def avg_tip_palm_distance (landmarks : Hand) : ℝ :=
  (calculate_distance (landmarks 9) (landmarks 4)
    + calculate_distance (landmarks 9) (landmarks 8)
    + calculate_distance (landmarks 9) (landmarks 12)
    + calculate_distance (landmarks 9) (landmarks 16)
    + calculate_distance (landmarks 9) (landmarks 20)) / 5

open scoped Classical in
/-- Embeds `detect_gesture`: the rule chain in source order; each Python
`return` inside a nested `if` becomes one conjunction of its guards. -/
noncomputable def detect_gesture (landmarks : Hand) : Gesture :=
  let cf := count_extended_fingers landmarks
  let count := cf.1
  let extended_fingers := cf.2
  let thumb_tip := landmarks 4
  let thumb_ip := landmarks 3
  let index_tip := landmarks 8
  let middle_tip := landmarks 12
  let wrist := landmarks 0
  let palm_center := landmarks 9
  let thumb_extended := (4 : Fin 21) ∈ extended_fingers
  let other_fingers_closed :=
    (landmarks 8).y > (landmarks 6).y ∧ (landmarks 12).y > (landmarks 10).y ∧
    (landmarks 16).y > (landmarks 14).y ∧ (landmarks 20).y > (landmarks 18).y
  if thumb_extended ∧ count = 1 ∧ thumb_tip.y < wrist.y ∧
      thumb_tip.y < thumb_ip.y - 5/100 ∧ other_fingers_closed then
    Gesture.THUMBS_UP
  else if thumb_extended ∧ count = 1 ∧ thumb_tip.y > palm_center.y + 5/100 ∧
      other_fingers_closed then
    Gesture.THUMBS_DOWN
  else if (8 : Fin 21) ∈ extended_fingers ∧ count = 1 ∧ ¬ thumb_extended then
    Gesture.ONE
  else if (8 : Fin 21) ∈ extended_fingers ∧ (12 : Fin 21) ∈ extended_fingers ∧ count = 2 ∧
      calculate_distance index_tip middle_tip > 5/100 then
    Gesture.TWO
  else if 4 ≤ count ∧ thumb_extended then
    Gesture.OPEN
  else if count = 0 ∧ avg_tip_palm_distance landmarks < 12/100 then
    Gesture.CLOSED
  else
    Gesture.UNKNOWN

/-- Mirror image of a hand: every x becomes 1 − x, y is unchanged. -/
def mirrorHand (landmarks : Hand) : Hand :=
  fun i => { x := 1 - (landmarks i).x, y := (landmarks i).y }

/-- Concrete fist-like hand used as a witness: every landmark at the origin,
so no finger is extended and every tip coincides with the palm center. -/
def fistHand : Hand := fun _ => { x := 0, y := 0 }

/-- Concrete hand on the degenerate boundary wrist.x = palm.x: thumb tip at
x = 0, thumb IP joint at x = 1, all other coordinates 0. -/
def boundaryHand : Hand :=
  fun i => if i = 3 then { x := 1, y := 0 } else { x := 0, y := 0 }

/-- Concrete hand with wrist strictly left of the palm center. -/
def offsetHand : Hand :=
  fun i => if i = 9 then { x := 1, y := 0 } else { x := 0, y := 0 }

/- ## Concrete states used in counterexamples and witnesses -/

/-- Controller state with an active ThumbsUp hold session. -/
def sHold : SysState :=
  { initState with last_gesture := some Gesture.THUMBS_UP, gesture_start_time := some 0 }

/-- Controller state with the LED on at stored level 0 (reachable from
`initState` by Open then three ThumbsDown fires). -/
def sLedOn0 : SysState :=
  { initState with led_on := true, led_level := 0 }

/-- Arduino-client state whose mirrored LED state reports on. -/
def aLedOn : ArdState :=
  { ard_init with led_on := true }

/-- Both device levels lie in the documented range [0, 5]. -/
def levelsInRange (s : SysState) : Prop :=
  0 ≤ s.led_level ∧ s.led_level ≤ 5 ∧ 0 ≤ s.motor_level ∧ s.motor_level ≤ 5

/- ## Helper lemmas: the device operations never touch the hold-timer locals -/

@[simp] lemma set_led_brightness_last (s : SysState) (n : Int) :
    (set_led_brightness s n).last_gesture = s.last_gesture := rfl

@[simp] lemma set_led_brightness_start (s : SysState) (n : Int) :
    (set_led_brightness s n).gesture_start_time = s.gesture_start_time := rfl

@[simp] lemma set_servo_speed_last (s : SysState) (n : Int) :
    (set_servo_speed s n).last_gesture = s.last_gesture := rfl

@[simp] lemma set_servo_speed_start (s : SysState) (n : Int) :
    (set_servo_speed s n).gesture_start_time = s.gesture_start_time := rfl

@[simp] lemma led_turn_on_last (s : SysState) :
    (led_turn_on s).last_gesture = s.last_gesture := by
  simp only [led_turn_on, set_led_brightness_last]
  split <;> rfl

@[simp] lemma led_turn_on_start (s : SysState) :
    (led_turn_on s).gesture_start_time = s.gesture_start_time := by
  simp only [led_turn_on, set_led_brightness_start]
  split <;> rfl

@[simp] lemma motor_turn_on_last (s : SysState) :
    (motor_turn_on s).last_gesture = s.last_gesture := by
  simp only [motor_turn_on, set_servo_speed_last]
  split <;> rfl

@[simp] lemma motor_turn_on_start (s : SysState) :
    (motor_turn_on s).gesture_start_time = s.gesture_start_time := by
  simp only [motor_turn_on, set_servo_speed_start]
  split <;> rfl

@[simp] lemma led_turn_off_last (s : SysState) :
    (led_turn_off s).last_gesture = s.last_gesture := rfl

@[simp] lemma led_turn_off_start (s : SysState) :
    (led_turn_off s).gesture_start_time = s.gesture_start_time := rfl

@[simp] lemma motor_turn_off_last (s : SysState) :
    (motor_turn_off s).last_gesture = s.last_gesture := rfl

@[simp] lemma motor_turn_off_start (s : SysState) :
    (motor_turn_off s).gesture_start_time = s.gesture_start_time := rfl

@[simp] lemma increase_led_last (s : SysState) :
    (increase_led s).last_gesture = s.last_gesture := by
  simp only [increase_led]
  split <;> rfl

@[simp] lemma increase_led_start (s : SysState) :
    (increase_led s).gesture_start_time = s.gesture_start_time := by
  simp only [increase_led]
  split <;> rfl

@[simp] lemma decrease_led_last (s : SysState) :
    (decrease_led s).last_gesture = s.last_gesture := by
  simp only [decrease_led]
  split <;> rfl

@[simp] lemma decrease_led_start (s : SysState) :
    (decrease_led s).gesture_start_time = s.gesture_start_time := by
  simp only [decrease_led]
  split <;> rfl

@[simp] lemma increase_motor_last (s : SysState) :
    (increase_motor s).last_gesture = s.last_gesture := by
  simp only [increase_motor]
  split <;> rfl

@[simp] lemma increase_motor_start (s : SysState) :
    (increase_motor s).gesture_start_time = s.gesture_start_time := by
  simp only [increase_motor]
  split <;> rfl

@[simp] lemma decrease_motor_last (s : SysState) :
    (decrease_motor s).last_gesture = s.last_gesture := by
  simp only [decrease_motor]
  split <;> rfl

@[simp] lemma decrease_motor_start (s : SysState) :
    (decrease_motor s).gesture_start_time = s.gesture_start_time := by
  simp only [decrease_motor]
  split <;> rfl

/- ## C7: turnOn semantics -/

/-- C7 counterexample: the claim asserts that calling turnOn on a device that
is already on leaves the state equal to what it was; but from the reachable
state on=true, level=0 (Open then three ThumbsDown fires), `led_turn_on`
changes the level to 3. -/
theorem C7_counterexample :
    sLedOn0.led_on = true ∧ led_turn_on sLedOn0 ≠ sLedOn0
      ∧ (led_turn_on sLedOn0).led_level = 3 := by
  decide

/-- C7 amended: turnOn sets on=true; exactly when the stored level is 0 it
becomes 3, otherwise it is unchanged; turnOn on a device already on with a
nonzero stored level leaves the state equal to what it was (idempotence
fails only at on=true, level=0); setLevel(0) then turnOn yields level 3.
Holds for the LED and the motor alike. -/
theorem C7_turn_on_amended (s : SysState)
    (h1 : 0 ≤ s.led_level) (h2 : s.led_level ≤ 5)
    (h3 : 0 ≤ s.motor_level) (h4 : s.motor_level ≤ 5) :
    ((led_turn_on s).led_on = true)
  ∧ (s.led_level = 0 → (led_turn_on s).led_level = 3)
  ∧ (s.led_level ≠ 0 → (led_turn_on s).led_level = s.led_level)
  ∧ (s.led_on = true → s.led_level ≠ 0 → led_turn_on s = s)
  ∧ ((led_turn_on (set_led_brightness s 0)).led_level = 3)
  ∧ ((motor_turn_on s).motor_on = true)
  ∧ (s.motor_level = 0 → (motor_turn_on s).motor_level = 3)
  ∧ (s.motor_level ≠ 0 → (motor_turn_on s).motor_level = s.motor_level)
  ∧ (s.motor_on = true → s.motor_level ≠ 0 → motor_turn_on s = s)
  ∧ ((motor_turn_on (set_servo_speed s 0)).motor_level = 3) := by
  obtain ⟨m, lo, ll, mo, ml, lg, st⟩ := s
  simp only at h1 h2 h3 h4
  refine ⟨?_, ?_, ?_, ?_, ?_, ?_, ?_, ?_, ?_, ?_⟩
  · simp only [led_turn_on, set_led_brightness]
    split <;> rfl
  · intro h0
    subst h0
    simp [led_turn_on, set_led_brightness]
  · intro h0
    simp [led_turn_on, set_led_brightness, h0]
    omega
  · intro hon h0
    subst hon
    simp [led_turn_on, set_led_brightness, h0, SysState.mk.injEq]
    omega
  · have e : max 0 (min 5 (0 : Int)) = 0 := by omega
    simp [led_turn_on, set_led_brightness, e]
  · simp only [motor_turn_on, set_servo_speed]
    split <;> rfl
  · intro h0
    subst h0
    simp [motor_turn_on, set_servo_speed]
  · intro h0
    simp [motor_turn_on, set_servo_speed, h0]
    omega
  · intro hon h0
    subst hon
    simp [motor_turn_on, set_servo_speed, h0, SysState.mk.injEq]
    omega
  · have e : max 0 (min 5 (0 : Int)) = 0 := by omega
    simp [motor_turn_on, set_servo_speed, e]

/-- C7 witness: the amended statement at the initial state. -/
theorem C7_turn_on_amended_witness :
    (led_turn_on initState).led_on = true ∧ (led_turn_on initState).led_level = 3 :=
  ⟨(C7_turn_on_amended initState (by decide) (by decide) (by decide) (by decide)).1,
   (C7_turn_on_amended initState (by decide) (by decide) (by decide) (by decide)).2.1 rfl⟩

/- ## C8: setLevel clamps into [0,5] -/

/-- C8: `set_led_brightness` and `set_servo_speed` store the clamp of the
argument into [0,5]: negative input gives 0, input above 5 gives 5, in-range
input is stored as is; in particular -5 gives 0 and 99 gives 5. -/
theorem C8_set_level_clamps (s : SysState) (n : Int) :
    ((n < 0 → (set_led_brightness s n).led_level = 0)
      ∧ (5 < n → (set_led_brightness s n).led_level = 5)
      ∧ (0 ≤ n → n ≤ 5 → (set_led_brightness s n).led_level = n)
      ∧ ((set_led_brightness s (-5)).led_level = 0)
      ∧ ((set_led_brightness s 99).led_level = 5))
  ∧ ((n < 0 → (set_servo_speed s n).motor_level = 0)
      ∧ (5 < n → (set_servo_speed s n).motor_level = 5)
      ∧ (0 ≤ n → n ≤ 5 → (set_servo_speed s n).motor_level = n)
      ∧ ((set_servo_speed s (-5)).motor_level = 0)
      ∧ ((set_servo_speed s 99).motor_level = 5)) := by
  refine ⟨⟨?_, ?_, ?_, ?_, ?_⟩, ?_, ?_, ?_, ?_, ?_⟩ <;>
    intros <;>
    simp [set_led_brightness, set_servo_speed] <;>
    omega

/-- C8 witness: the clamp at the concrete inputs -5 and 99. -/
theorem C8_set_level_clamps_witness :
    (set_led_brightness initState (-5)).led_level = 0
  ∧ (set_servo_speed initState 99).motor_level = 5 :=
  ⟨(C8_set_level_clamps initState 0).1.2.2.2.1,
   (C8_set_level_clamps initState 0).2.2.2.2.2⟩

/- ## C4: level range invariant -/

/-- C4 counterexample: the claim asserts the level stays in [0,5] also under
inbound protocol lines, but `_process_response` stores the parsed value of a
`LED:LEVEL:<n>` line without clamping: the line LED:LEVEL:99 sets
led_level to 99. -/
theorem C4_counterexample :
    (process_response ard_init ("LED:LEVEL:99".data)).led_level = 99
  ∧ ¬ (process_response ard_init ("LED:LEVEL:99".data)).led_level ≤ 5 := by
  decide

/-- C4 amended: starting from levels in [0,5], every `DeviceController`
operation (setLevel, turnOn, turnOff, increase, decrease for either device)
keeps both levels in [0,5]; inbound protocol lines, however, store the
parsed level unclamped. -/
theorem C4_level_clamp_amended (s : SysState) (n : Int) (h : levelsInRange s) :
    levelsInRange (set_led_brightness s n) ∧ levelsInRange (set_servo_speed s n)
  ∧ levelsInRange (led_turn_on s) ∧ levelsInRange (led_turn_off s)
  ∧ levelsInRange (motor_turn_on s) ∧ levelsInRange (motor_turn_off s)
  ∧ levelsInRange (increase_led s) ∧ levelsInRange (decrease_led s)
  ∧ levelsInRange (increase_motor s) ∧ levelsInRange (decrease_motor s) := by
  obtain ⟨m, lo, ll, mo, ml, lg, st⟩ := s
  obtain ⟨h1, h2, h3, h4⟩ := h
  simp only at h1 h2 h3 h4
  refine ⟨?_, ?_, ?_, ?_, ?_, ?_, ?_, ?_, ?_, ?_⟩ <;>
    simp [levelsInRange, set_led_brightness, set_servo_speed, led_turn_on,
      led_turn_off, motor_turn_on, motor_turn_off, increase_led, decrease_led,
      increase_motor, decrease_motor] <;>
    (try split_ifs) <;>
    (try simp) <;>
    omega

/-- C4 witness: the invariant preserved from the initial state. -/
theorem C4_level_clamp_amended_witness :
    levelsInRange (led_turn_on initState) :=
  (C4_level_clamp_amended initState 0 (by simp [levelsInRange, initState])).2.2.1

/- ## C2: what resets the hold session -/

/-- C2 counterexample: from an active ThumbsUp hold session, a step with
gesture One leaves the session in place (the reset `else` of the chain
catches only the Unknown label), contradicting the claim that a One step
always leaves the hold timer Idle with no stored start time. -/
theorem C2_counterexample :
    sHold.last_gesture = some Gesture.THUMBS_UP
  ∧ (ctrlStep sHold (some Gesture.ONE) 1).1.last_gesture = some Gesture.THUMBS_UP
  ∧ (ctrlStep sHold (some Gesture.ONE) 1).1.gesture_start_time = some 0 := by
  decide

/-- C2 amended: a step with gesture Unknown or with no hand always resets the
hold session to Idle (no stored gesture, no stored start time); a step with
gesture One, Two, Open or Closed leaves the hold session exactly as it was.
This holds in `gesture_control_system.main` and in
`gesture_control_client_arduino.main` alike. -/
theorem C2_hold_reset_amended (s : SysState) (a : ArdState) (t : ℚ) :
    ((ctrlStep s none t).1.last_gesture = none
      ∧ (ctrlStep s none t).1.gesture_start_time = none)
  ∧ ((ctrlStep s (some Gesture.UNKNOWN) t).1.last_gesture = none
      ∧ (ctrlStep s (some Gesture.UNKNOWN) t).1.gesture_start_time = none)
  ∧ (∀ g, g = Gesture.ONE ∨ g = Gesture.TWO ∨ g = Gesture.OPEN ∨ g = Gesture.CLOSED →
      (ctrlStep s (some g) t).1.last_gesture = s.last_gesture
      ∧ (ctrlStep s (some g) t).1.gesture_start_time = s.gesture_start_time)
  ∧ ((ardStep a none t).1.last_gesture = none
      ∧ (ardStep a none t).1.gesture_start_time = none)
  ∧ ((ardStep a (some Gesture.UNKNOWN) t).1.last_gesture = none
      ∧ (ardStep a (some Gesture.UNKNOWN) t).1.gesture_start_time = none)
  ∧ (∀ g, g = Gesture.ONE ∨ g = Gesture.TWO ∨ g = Gesture.OPEN ∨ g = Gesture.CLOSED →
      (ardStep a (some g) t).1.last_gesture = a.last_gesture
      ∧ (ardStep a (some g) t).1.gesture_start_time = a.gesture_start_time) := by
  refine ⟨⟨rfl, rfl⟩, ⟨rfl, rfl⟩, ?_, ⟨rfl, rfl⟩, ⟨rfl, rfl⟩, ?_⟩
  · rintro g (rfl | rfl | rfl | rfl) <;>
      constructor <;>
      simp only [ctrlStep] <;>
      split <;>
      (try split) <;>
      simp
  · rintro g (rfl | rfl | rfl | rfl) <;> exact ⟨rfl, rfl⟩

/-- C2 witness: the amended statement applied with gesture One at the
initial states. -/
theorem C2_hold_reset_amended_witness :
    (ctrlStep initState (some Gesture.ONE) 0).1.last_gesture = initState.last_gesture :=
  ((C2_hold_reset_amended initState ard_init 0).2.2.1 Gesture.ONE (Or.inl rfl)).1

/- ## C3: edge-triggering of Open -/

/-- C3 counterexample: in the Arduino client the Open branch calls
`turn_on` with no state check, so with the LED already reported on a step
with gesture Open still sends the LED:ON line — the claim that no TurnOn
command is emitted while the active device is on fails in this variant. -/
theorem C3_counterexample :
    aLedOn.led_on = true ∧ aLedOn.mode = ("LED".data)
  ∧ (ardStep aLedOn (some Gesture.OPEN) 0).2 = [("LED:ON".data)] := by
  decide

/-- C3 amended: in `gesture_control_system.main` the Open gesture is
edge-triggered — a step with Open on an already-on active device leaves the
state unchanged and emits nothing, and a TurnOn command is only emitted when
the active device is off; in `gesture_control_client_arduino.main`, however,
every step with Open sends the `turn_on` line regardless of device state. -/
theorem C3_open_edge_amended :
    (∀ (s : SysState) (t : ℚ),
      (s.mode = Mode.LED → s.led_on = true → ctrlStep s (some Gesture.OPEN) t = (s, []))
      ∧ (s.mode = Mode.MOTOR → s.motor_on = true → ctrlStep s (some Gesture.OPEN) t = (s, []))
      ∧ (Command.TurnOn ∈ (ctrlStep s (some Gesture.OPEN) t).2 →
          (s.mode = Mode.LED ∧ s.led_on = false) ∨ (s.mode = Mode.MOTOR ∧ s.motor_on = false)))
  ∧ (∀ (a : ArdState) (t : ℚ), (ardStep a (some Gesture.OPEN) t).2 = ard_turn_on a) := by
  constructor
  · intro s t
    refine ⟨?_, ?_, ?_⟩
    · intro hm ho
      simp [ctrlStep, hm, ho]
    · intro hm ho
      simp [ctrlStep, hm, ho]
    · intro hmem
      simp only [ctrlStep] at hmem
      split at hmem
      · next h => exact Or.inl h
      · split at hmem
        · next h => exact Or.inr h
        · simp at hmem
  · intro a t
    rfl

/-- C3 witness: in the system variant, Open with the LED already on is a
no-op; in the Arduino variant the sent lines are exactly `turn_on`. -/
theorem C3_open_edge_amended_witness :
    ctrlStep sLedOn0 (some Gesture.OPEN) 0 = (sLedOn0, []) :=
  (C3_open_edge_amended.1 sLedOn0 0).1 rfl rfl

/- ## C1: the spec scenario, step by step -/

lemma c1_step1 : ctrlStep initState (some Gesture.ONE) 0 = (initState, []) := by
  simp [ctrlStep, initState]

lemma c1_step2 : ctrlStep initState (some Gesture.OPEN) 0 =
    (⟨Mode.LED, true, 3, false, 0, none, none⟩, [Command.TurnOn]) := by
  simp [ctrlStep, initState, led_turn_on, set_led_brightness]

lemma c1_step3 : ctrlStep ⟨Mode.LED, true, 3, false, 0, none, none⟩
    (some Gesture.THUMBS_UP) 0 =
    (⟨Mode.LED, true, 3, false, 0, some Gesture.THUMBS_UP, some 0⟩, []) := by
  simp [ctrlStep, holdStep]

lemma c1_step4 : ctrlStep ⟨Mode.LED, true, 3, false, 0, some Gesture.THUMBS_UP, some 0⟩
    (some Gesture.THUMBS_UP) 2 =
    (⟨Mode.LED, true, 4, false, 0, some Gesture.THUMBS_UP, some 2⟩, [Command.LevelUp]) := by
  norm_num [ctrlStep, holdStep, HOLD_DURATION, increase_led, set_led_brightness]

lemma c1_step5 : ctrlStep ⟨Mode.LED, true, 4, false, 0, some Gesture.THUMBS_UP, some 2⟩
    (some Gesture.THUMBS_UP) (21/10) =
    (⟨Mode.LED, true, 4, false, 0, some Gesture.THUMBS_UP, some 2⟩, []) := by
  norm_num [ctrlStep, holdStep, HOLD_DURATION]

lemma c1_step6 : ctrlStep ⟨Mode.LED, true, 4, false, 0, some Gesture.THUMBS_UP, some 2⟩
    (some Gesture.CLOSED) (21/10) =
    (⟨Mode.LED, false, 4, false, 0, some Gesture.THUMBS_UP, some 2⟩, [Command.TurnOff]) := by
  simp [ctrlStep, led_turn_off]

/-- C1 counterexample: the controller already starts in Led mode, so the One
step is idempotent and emits no SetMode(Led) command; the emitted sequence
is not the claimed [SetMode(Led), TurnOn, LevelUp, TurnOff]. -/
theorem C1_counterexample :
    (ctrlRun initState C1stream).2 ≠
      [Command.SetMode Mode.LED, Command.TurnOn, Command.LevelUp, Command.TurnOff] := by
  simp [ctrlRun, C1stream, c1_step1, c1_step2, c1_step3, c1_step4, c1_step5, c1_step6]

/-- C1 amended: the scenario stream on a controller starting in Led/off/
level=0 emits exactly [TurnOn, LevelUp, TurnOff] — no SetMode(Led), since
the mode is already Led and the One rule is idempotent — and leaves the LED
state off at level 4. -/
theorem C1_scenario_amended :
    (ctrlRun initState C1stream).2 = [Command.TurnOn, Command.LevelUp, Command.TurnOff]
  ∧ (ctrlRun initState C1stream).1.led_on = false
  ∧ (ctrlRun initState C1stream).1.led_level = 4 := by
  refine ⟨?_, ?_, ?_⟩ <;>
    simp [ctrlRun, C1stream, c1_step1, c1_step2, c1_step3, c1_step4, c1_step5, c1_step6]

/- ## C6: hold-repeat cadence at the firing boundaries -/

lemma c6_enter (s : SysState) (t0 : ℚ) (h : s.last_gesture = none) :
    ctrlStep s (some Gesture.THUMBS_UP) t0 =
    ({ s with last_gesture := some Gesture.THUMBS_UP, gesture_start_time := some t0 }, []) := by
  simp [ctrlStep, holdStep, h]

lemma c6_fire (s : SysState) (t0 t : ℚ) (h : s.last_gesture = some Gesture.THUMBS_UP)
    (hs : s.gesture_start_time = some t0) (ht : HOLD_DURATION ≤ t - t0) :
    ctrlStep s (some Gesture.THUMBS_UP) t =
    ({ (if s.mode = Mode.LED then increase_led s else increase_motor s) with
        gesture_start_time := some t }, [Command.LevelUp]) := by
  simp [ctrlStep, holdStep, h, hs, ht]

/-- C6: from an idle hold timer, a ThumbsUp sustained with frames at the
firing boundaries produces exactly one repeat fire over a hold of exactly
HOLD_DURATION seconds, and exactly two over 2×HOLD_DURATION seconds — one
LevelUp per boundary, never more. -/
theorem C6_hold_repeat_cadence (s : SysState) (t0 : ℚ) (h : s.last_gesture = none) :
    (ctrlRun s [(some Gesture.THUMBS_UP, t0),
      (some Gesture.THUMBS_UP, t0 + HOLD_DURATION)]).2 = [Command.LevelUp]
  ∧ (ctrlRun s [(some Gesture.THUMBS_UP, t0), (some Gesture.THUMBS_UP, t0 + HOLD_DURATION),
      (some Gesture.THUMBS_UP, t0 + HOLD_DURATION + HOLD_DURATION)]).2
      = [Command.LevelUp, Command.LevelUp] := by
  have e1 := c6_enter s t0 h
  set s1 := { s with last_gesture := some Gesture.THUMBS_UP,
                     gesture_start_time := some t0 } with hs1
  have l1 : s1.last_gesture = some Gesture.THUMBS_UP := by rw [hs1]
  have st1 : s1.gesture_start_time = some t0 := by rw [hs1]
  have e2 := c6_fire s1 t0 (t0 + HOLD_DURATION) l1 st1 (by simp)
  set s2 := { (if s1.mode = Mode.LED then increase_led s1 else increase_motor s1) with
              gesture_start_time := some (t0 + HOLD_DURATION) } with hs2
  have l2 : s2.last_gesture = some Gesture.THUMBS_UP := by
    rw [hs2]
    show (if s1.mode = Mode.LED then increase_led s1 else increase_motor s1).last_gesture = _
    split <;> simp [l1]
  have st2 : s2.gesture_start_time = some (t0 + HOLD_DURATION) := by rw [hs2]
  have e3 := c6_fire s2 (t0 + HOLD_DURATION) (t0 + HOLD_DURATION + HOLD_DURATION) l2 st2 (by simp)
  refine ⟨?_, ?_⟩ <;> simp [ctrlRun, e1, e2, e3]

/-- C6 witness: the cadence from the initial state with the hold starting
at time 0. -/
theorem C6_hold_repeat_cadence_witness :
    (ctrlRun initState [(some Gesture.THUMBS_UP, 0),
      (some Gesture.THUMBS_UP, 0 + HOLD_DURATION)]).2 = [Command.LevelUp] :=
  (C6_hold_repeat_cadence initState 0 rfl).1

/- ## C5: malformed protocol lines leave the state unchanged -/

@[simp] lemma strStarts_any_nil (s : Line) : strStarts s [] = true := by
  cases s <;> rfl

lemma strStarts_head_ne {line : Line} {c d : Char} {p q : Line}
    (hcd : c ≠ d) (h : strStarts line (c :: p) = true) :
    strStarts line (d :: q) = false := by
  cases line with
  | nil => simp [strStarts] at h
  | cons a t =>
    simp only [strStarts, Bool.and_eq_true, beq_iff_eq] at h
    have had : a ≠ d := by
      rw [h.1]
      exact hcd
    have hne : (a == d) = false := by simp [had]
    simp [strStarts, hne]

lemma strStarts_comparable (line : Line) : ∀ (p q : Line),
    strStarts line p = true → strStarts line q = true →
    strStarts p q = true ∨ strStarts q p = true := by
  induction line with
  | nil =>
    intro p q hp _
    cases p with
    | nil => exact Or.inr (strStarts_any_nil q)
    | cons c cs => simp [strStarts] at hp
  | cons a t ih =>
    intro p q hp hq
    cases p with
    | nil => exact Or.inr (strStarts_any_nil q)
    | cons c cs =>
      cases q with
      | nil => exact Or.inl (strStarts_any_nil _)
      | cons d ds =>
        simp only [strStarts, Bool.and_eq_true, beq_iff_eq] at hp hq
        obtain ⟨rfl, hp2⟩ := hp
        obtain ⟨rfl, hq2⟩ := hq
        rcases ih cs ds hp2 hq2 with hx | hx
        · exact Or.inl (by simp [strStarts, hx])
        · exact Or.inr (by simp [strStarts, hx])

lemma led_not_status {line : Line} (h : strStarts line ("LED:".data) = true) :
    strStarts line ("STATUS:".data) = false := by
  rw [show ("LED:".data : Line) = 'L' :: ("ED:".data) from rfl] at h
  rw [show ("STATUS:".data : Line) = 'S' :: ("TATUS:".data) from rfl]
  exact strStarts_head_ne (by decide) h

lemma led_not_mode {line : Line} (h : strStarts line ("LED:".data) = true) :
    strStarts line ("MODE:".data) = false := by
  rw [show ("LED:".data : Line) = 'L' :: ("ED:".data) from rfl] at h
  rw [show ("MODE:".data : Line) = 'M' :: ("ODE:".data) from rfl]
  exact strStarts_head_ne (by decide) h

lemma motor_not_status {line : Line} (h : strStarts line ("MOTOR:".data) = true) :
    strStarts line ("STATUS:".data) = false := by
  rw [show ("MOTOR:".data : Line) = 'M' :: ("OTOR:".data) from rfl] at h
  rw [show ("STATUS:".data : Line) = 'S' :: ("TATUS:".data) from rfl]
  exact strStarts_head_ne (by decide) h

lemma motor_not_led {line : Line} (h : strStarts line ("MOTOR:".data) = true) :
    strStarts line ("LED:".data) = false := by
  rw [show ("MOTOR:".data : Line) = 'M' :: ("OTOR:".data) from rfl] at h
  rw [show ("LED:".data : Line) = 'L' :: ("ED:".data) from rfl]
  exact strStarts_head_ne (by decide) h

lemma motor_not_mode {line : Line} (h : strStarts line ("MOTOR:".data) = true) :
    strStarts line ("MODE:".data) = false := by
  by_contra hc
  rw [Bool.not_eq_false] at hc
  rcases strStarts_comparable line ("MOTOR:".data) ("MODE:".data) h hc with hx | hx <;>
    exact absurd hx (by decide)

/-- C5 counterexample: the claim asserts that every LED:/MOTOR: line whose
suffix is outside the grammar leaves the state unchanged, but the suffix
dispatch of `_process_response` tests substring containment over the whole
line: LED:MONKEY (MONKEY contains ON) turns the mirrored LED on, and
MOTOR:OFFLINE (OFFLINE contains OFF) turns the mirrored motor off. -/
theorem C5_counterexample :
    ard_init.led_on = false
  ∧ (process_response ard_init ("LED:MONKEY".data)).led_on = true
  ∧ (process_response { ard_init with motor_on := true }
      ("MOTOR:OFFLINE".data)).motor_on = false := by
  decide

/-- C5 amended: a line with an unknown prefix or a STATUS: line whose field
count is not 5 leaves every state field unchanged, with no partial update;
a LED:/MOTOR: line leaves the state unchanged when the line contains none
of the substrings ON, OFF, LEVEL: — the code recognizes suffixes by
substring containment anywhere in the line, not by the grammar's exact
suffix forms. -/
theorem C5_malformed_no_change (a : ArdState) (line : Line)
    (h : (strStarts line ("STATUS:".data) = false ∧ strStarts line ("MODE:".data) = false
        ∧ strStarts line ("LED:".data) = false ∧ strStarts line ("MOTOR:".data) = false)
      ∨ (strStarts line ("STATUS:".data) = true
        ∧ (splitOnChar ',' (line.drop 7)).length ≠ 5)
      ∨ ((strStarts line ("LED:".data) = true ∨ strStarts line ("MOTOR:".data) = true)
        ∧ hasSub ("ON".data) line = false ∧ hasSub ("OFF".data) line = false
        ∧ hasSub ("LEVEL:".data) line = false)) :
    process_response a line = a := by
  rcases h with ⟨h1, h2, h3, h4⟩ | ⟨h1, h2⟩ | ⟨h1, h2, h3, h4⟩
  · simp [process_response, h1, h2, h3, h4]
  · simp [process_response, h1, h2]
  · rcases h1 with h1 | h1
    · simp [process_response, led_not_status h1, led_not_mode h1, h1, h2, h3, h4]
    · simp [process_response, motor_not_status h1, motor_not_mode h1, motor_not_led h1,
        h1, h2, h3, h4]

/-- C5 witness: the inbound line GARBAGE:1,2,3 leaves the state unchanged. -/
theorem C5_malformed_no_change_witness :
    process_response ard_init ("GARBAGE:1,2,3".data) = ard_init :=
  C5_malformed_no_change ard_init ("GARBAGE:1,2,3".data) (Or.inl (by decide))

/- ## C9: the Closed rule -/

/-- C9: on any hand with zero extended fingers whose mean tip-to-palm
distance is below 0.12, the classifier returns Closed — no earlier rule of
the chain can fire, since each needs an extended finger or a count of at
least 2. -/
theorem C9_fist_closed (l : Hand)
    (h0 : (count_extended_fingers l).1 = 0)
    (hd : avg_tip_palm_distance l < 12/100) :
    detect_gesture l = Gesture.CLOSED := by
  have h2 : (count_extended_fingers l).2 = [] := by
    have hlen : (count_extended_fingers l).2.length = (count_extended_fingers l).1 := rfl
    rw [h0] at hlen
    exact List.length_eq_zero.mp hlen
  simp [detect_gesture, h0, h2, hd]

/-- C9 witness: the all-at-origin hand has no extended finger and mean
tip-to-palm distance 0, and is classified Closed. -/
theorem C9_fist_closed_witness :
    (count_extended_fingers fistHand).1 = 0
  ∧ avg_tip_palm_distance fistHand < 12/100
  ∧ detect_gesture fistHand = Gesture.CLOSED := by
  have hd : avg_tip_palm_distance fistHand < 12/100 := by
    norm_num [avg_tip_palm_distance, calculate_distance, fistHand, Real.sqrt_zero]
  exact ⟨by decide, hd, C9_fist_closed fistHand (by decide) hd⟩

/- ## C10: mirror invariance of the thumb predicate -/

/-- C10 counterexample: on the degenerate boundary wrist.x = palm.x the
comparison direction flips under mirroring while the branch taken does not,
so the thumb predicate differs between a hand and its mirror image. -/
theorem C10_counterexample :
    (boundaryHand 0).x = (boundaryHand 9).x
  ∧ is_finger_extended boundaryHand 4 3 ≠ is_finger_extended (mirrorHand boundaryHand) 4 3 := by
  constructor
  · rfl
  · norm_num [is_finger_extended, mirrorHand, boundaryHand]
    decide

/-- C10 amended: whenever wrist.x differs from palm-center.x, the thumb
extension predicate gives the same answer on a hand and on its mirror image
(x replaced by 1 − x); invariance can only fail on the degenerate boundary
wrist.x = palm.x. -/
theorem C10_thumb_mirror_amended (l : Hand) (h : (l 0).x ≠ (l 9).x) :
    is_finger_extended l 4 3 = is_finger_extended (mirrorHand l) 4 3 := by
  simp only [is_finger_extended, mirrorHand]
  rcases lt_or_gt_of_ne h with h1 | h1
  · simp [h1, h1.asymm, sub_lt_sub_iff_left]
  · simp [h1, h1.asymm, not_lt_of_gt h1, sub_lt_sub_iff_left]

/-- C10 witness: the amended statement on a hand with wrist.x strictly left
of palm.x. -/
theorem C10_thumb_mirror_amended_witness :
    is_finger_extended offsetHand 4 3 = is_finger_extended (mirrorHand offsetHand) 4 3 :=
  C10_thumb_mirror_amended offsetHand (by decide)

end GestureControl
